import Mathlib

/-!
Shallow embedding of `server.go` from the phone-journal repository: a webhook
server that records phone calls, transcribes them with a speech engine, and
publishes the transcript to a notes service.  External collaborators (the HTTP
client, the WAV codec, the speech engine, the notes client, the TwiML
marshaller) are modelled at their interface boundary as parameters of the
embedded functions; everything the Go file itself computes is embedded
faithfully.
-/

namespace PhoneJournal

/-! ## Constants (`server.go` lines 27-34, and the whisper binding) -/

/-- `whisperNumChans = 1`: Whisper requires a single-channel audio file. -/
def whisperNumChans : Nat := 1

/-- `recordingPath = "/recording"`: url path for the recording callback. -/
def recordingPath : String := "/recording"

/-- `maxTitleLen = 32`: maximum length of the title string used in Notion. -/
def maxTitleLen : Nat := 32

/-- `whisper.SampleRate`: the fixed sample rate (16 kHz) the speech engine
expects, from the whisper bindings used at `server.go:166,169`. -/
def whisperSampleRate : Nat := 16000

/-! ## Configuration (`config` struct, `server.go` lines 36-44) -/

/-- The process configuration parsed from the environment. -/
structure Config where
  modelFile : String
  externalHostname : String
  callerWhitelist : List String
  twilioAccountSid : String
  twilioAuthToken : String
  notionAuthToken : String
  notionDatabaseId : String
deriving Repr, DecidableEq

/-! ## HTTP request and response model -/

/-- A parsed POST form, as Go's `url.Values`: each key maps to a list of
values.  A Go map has unique keys; lookups below take the first binding. -/
abbrev Form : Type := List (String × List String)

/-- Go's `url.Values.Get`: the first value associated with the key, or the
empty string when the key is absent or has no values. -/
def Form.get (form : Form) (key : String) : String :=
  match form.find? (fun kv => kv.1 == key) with
  | some (_, v :: _) => v
  | _ => ""

/-- The parts of an inbound HTTP request the handlers in `server.go` read:
the URL path, the `X-Twilio-Signature` header, and the parsed POST form. -/
structure Request where
  path : String
  signatureHeader : String
  postForm : Form
deriving DecidableEq

/-- The TwiML control documents the server can emit: the `/call` answer
(a `VoiceSay` prompt followed by a `VoiceRecord` with a status callback URL,
`server.go:67-74`) or a bare `VoiceReject` (`server.go:281`).  The TwiML
marshaller applied to these fixed element lists is deterministic and total,
so it is modelled as data rather than as a fallible renderer. -/
inductive Directive
  | sayAndRecord (message : String) (recordingStatusCallback : String)
  | rejectCall
deriving Repr, DecidableEq

/-- One write to the HTTP response: a bare status write from
`AbortWithStatus`/`AbortWithError`, an XML TwiML document written via
`c.String` with an XML content type, or a plain text body.  A gin response
can receive several writes from different handlers of the same chain; the
bodies are appended in order and the effective HTTP status is the code of
the first write (gin ignores later `WriteHeader` calls). -/
inductive Write
  | status (code : Nat)
  | directive (code : Nat) (d : Directive)
  | text (code : Nat) (body : String)
deriving Repr, DecidableEq

/-- What one gin handler does with the context: the response writes it
performs, in order, and whether it calls `c.Abort…`.  Gin only stops the
remaining handlers of the chain when `Abort` is called; a handler that
merely writes a response and returns leaves `c.Next()`'s loop running the
rest of the chain. -/
abbrev HandlerAction : Type := List Write × Bool

/-! ## Signature verification middleware (`checkTwilioSignature`,
`server.go` lines 248-269) -/

/-- `checkTwilioSignature`: builds the full URL from the configured hostname
and the request path, reads the `X-Twilio-Signature` header, refuses any
form in which some field does not carry exactly one value with
`AbortWithStatus(http.StatusBadRequest)` (a real abort, stopping the
chain), otherwise flattens the form to a key-to-value map and compares the
header against the expected signature via the Twilio `RequestValidator`
(modelled as the parameter `validate`); a mismatch yields
`AbortWithStatus(http.StatusForbidden)`; on success it calls `c.Next()`
writing nothing. -/
def checkTwilioSignature (validate : String → List (String × String) → String → Bool)
    (hostname : String) (req : Request) : HandlerAction :=
  let url := "https://" ++ hostname ++ req.path
  let signature := req.signatureHeader
  if req.postForm.all (fun kv => kv.2.length == 1) then
    let params := req.postForm.map (fun kv => (kv.1, kv.2.headD ""))
    if validate url params signature then ([], false)
    else ([Write.status 403], true)
  else ([Write.status 400], true)

/-! ## Caller whitelist middleware (`checkCallerWhitelist`,
`server.go` lines 271-292) -/

/-- `checkCallerWhitelist`: builds the allowed set from the configured
whitelist, reads the `From` form field, and for a caller not in the set
writes HTTP 200 with the TwiML `VoiceReject` document via `c.String` and
returns — it never calls `c.Abort()`, so the chain is not stopped and the
route handler still runs afterwards; for an allow-listed caller it calls
`c.Next()` writing nothing. -/
def checkCallerWhitelist (callerWhitelist : List String) (req : Request) : HandlerAction :=
  let caller := req.postForm.get "From"
  if callerWhitelist.contains caller then ([], false)
  else ([Write.directive 200 Directive.rejectCall], false)

/-! ## Endpoint handlers (`server.go` lines 66-95) -/

/-- The `/call` handler body: writes HTTP 200 with a TwiML document that
speaks a prompt and records the call, pointing the recording status callback
at `https://<hostname>/recording`. -/
def callHandler (cfg : Config) (_req : Request) : HandlerAction :=
  ([Write.directive 200
      (Directive.sayAndRecord "What's on your mind? This call is recorded."
        ("https://" ++ cfg.externalHostname ++ recordingPath))],
   false)

/-- The `/recording` handler body: reads `RecordingStatus` from the form and
aborts with HTTP 400 (`incomplete recording`) unless it equals `completed`;
otherwise launches `processRecording` on the `RecordingUrl` as a detached
goroutine and writes HTTP 200 `Thanks!`.  The last component records the
detached pipeline launch (`some url`), which the response never waits on. -/
def recordingHandler (req : Request) : HandlerAction × Option String :=
  let status := req.postForm.get "RecordingStatus"
  if status ≠ "completed" then (([Write.status 400], true), none)
  else (([Write.text 200 "Thanks!"], false), some (req.postForm.get "RecordingUrl"))

/-- The middleware stages of a route, in the order gin runs them. -/
inductive Stage
  | signatureCheck
  | whitelistCheck
  | handler
deriving Repr, DecidableEq

/-- The outcome of running one route's gin chain: the response writes in
order (the effective HTTP status is the first write's code), the detached
pipeline launch (if any), and the handlers that actually ran. -/
structure RouteOutcome where
  writes : List Write
  launched : Option String
  stagesRun : List Stage
deriving Repr, DecidableEq

/-- Runs the gin chain `signatureChecker, whitelistChecker, handler` with
gin's `Next` semantics: each handler's writes are appended to the response,
and the chain moves on to the next handler unless the previous one called
`Abort` — a handler that writes and merely returns does not stop it. -/
def runChain (sig wl : Request → HandlerAction)
    (handler : Request → HandlerAction × Option String) (req : Request) : RouteOutcome :=
  let s := sig req
  if s.2 then { writes := s.1, launched := none, stagesRun := [Stage.signatureCheck] }
  else
    let w := wl req
    if w.2 then
      { writes := s.1 ++ w.1, launched := none
        stagesRun := [Stage.signatureCheck, Stage.whitelistCheck] }
    else
      let h := handler req
      { writes := s.1 ++ w.1 ++ h.1.1, launched := h.2
        stagesRun := [Stage.signatureCheck, Stage.whitelistCheck, Stage.handler] }

/-- `router.POST("/call", signatureChecker, whitelistChecker, handler)`. -/
def handleCall (validate : String → List (String × String) → String → Bool)
    (cfg : Config) (req : Request) : RouteOutcome :=
  runChain (checkTwilioSignature validate cfg.externalHostname)
    (checkCallerWhitelist cfg.callerWhitelist)
    (fun r => (callHandler cfg r, none)) req

/-- `router.POST(recordingPath, signatureChecker, whitelistChecker, handler)`. -/
def handleRecording (validate : String → List (String × String) → String → Bool)
    (cfg : Config) (req : Request) : RouteOutcome :=
  runChain (checkTwilioSignature validate cfg.externalHostname)
    (checkCallerWhitelist cfg.callerWhitelist) recordingHandler req

/-! ## Recording fetch (`downloadRecording`, `server.go` lines 125-151) -/

/-- The outcome of the authenticated HTTP GET performed by the external HTTP
client: either the call itself errors (network failure), or a response with
a status code and a body arrives, whose body read can additionally fail. -/
inductive HttpGetResult
  | netErr (msg : String)
  | response (statusCode : Nat) (body : List Nat) (readFails : Bool)
deriving Repr, DecidableEq

/-- `downloadRecording`: performs a GET on the recording URL with basic auth;
fails when the HTTP call errors, when the response status is not 200
(capturing the status code in the error text), or when reading the body
fails; otherwise yields the raw recording bytes. -/
def downloadRecording (get : String → HttpGetResult) (url : String) :
    Except String (List Nat) :=
  match get url with
  | HttpGetResult.netErr msg => Except.error msg
  | HttpGetResult.response statusCode body readFails =>
    if statusCode ≠ 200 then
      Except.error ("unexpected status code: " ++ toString statusCode)
    else if readFails then Except.error "read body failed"
    else Except.ok body

/-! ## Audio normalization (`resampleRecording`, `server.go` lines 153-177) -/

/-- The audio container format fields the Go code reads from the decoded WAV
header: channel count, sample rate, and sample precision. -/
structure AudioFormat where
  numChannels : Nat
  sampleRate : Nat
  precision : Nat
deriving Repr, DecidableEq

/-- The result of the external WAV decoder (`bwav.Decode`): a decode error,
or the declared format together with the sample stream. -/
inductive WavDecodeResult
  | err (msg : String)
  | ok (format : AudioFormat) (samples : List Int)
deriving Repr, DecidableEq

/-- Audio produced by the normalizer: the re-encoded container format and the
resampled sample stream. -/
structure NormalizedAudio where
  format : AudioFormat
  samples : List Int
deriving Repr, DecidableEq

/-- `resampleRecording`: decodes the fetched WAV (failing on a decoder
error), rejects any stream whose channel count is not `whisperNumChans`
with an `unsupported number of channels` error, resamples from the source
rate to `whisper.SampleRate` (the external `beep.Resample` filter, modelled
as the parameter `resample`), and re-encodes at the new sample rate keeping
the input's channel count and precision; the external encoder can fail. -/
def resampleRecording (resample : Nat → Nat → List Int → List Int)
    (decoded : WavDecodeResult) (encodeFails : Bool) :
    Except String NormalizedAudio :=
  match decoded with
  | WavDecodeResult.err msg => Except.error msg
  | WavDecodeResult.ok format samples =>
    if format.numChannels ≠ whisperNumChans then
      Except.error ("unsupported number of channels: " ++ toString format.numChannels)
    else if encodeFails then Except.error "encode failed"
    else Except.ok
      { format :=
          { numChannels := format.numChannels
            sampleRate := whisperSampleRate
            precision := format.precision }
        samples := resample format.sampleRate whisperSampleRate samples }

/-! ## Transcription (`transcribeRecording`, `server.go` lines 179-208) -/

/-- One answer of the speech engine's `context.NextSegment()` call: a text
segment, the `io.EOF` end-of-segments marker, or a processing error. -/
inductive SegStep
  | text (s : String)
  | endOfSegments
  | procErr (msg : String)
deriving Repr, DecidableEq

/-- The `for { NextSegment }` loop of `transcribeRecording`: consumes the
engine's segment stream in emission order, appending each segment's text to
the string builder, until `io.EOF` breaks the loop; any other error aborts
the transcription.  A live engine always terminates the stream, so an
unterminated stream is treated as ended. -/
def consumeSegments : List SegStep → Except String String
  | [] => Except.ok ""
  | SegStep.endOfSegments :: _ => Except.ok ""
  | SegStep.procErr msg :: _ => Except.error msg
  | SegStep.text s :: rest =>
    match consumeSegments rest with
    | Except.error msg => Except.error msg
    | Except.ok tail => Except.ok (s ++ tail)

/-- The behaviour of the external speech engine and WAV PCM decoder inside
`transcribeRecording`: whether `FullPCMBuffer` decoding fails, whether
`model.NewContext` fails, whether `context.Process` fails, and the segment
stream `NextSegment` then emits. -/
structure EngineBehaviour where
  pcmDecodeFails : Bool
  newContextFails : Bool
  processFails : Bool
  stream : List SegStep

/-- `transcribeRecording`: decodes the normalized audio to a PCM buffer,
creates an engine context, submits the whole buffer to `context.Process`,
then concatenates the emitted segments via `consumeSegments`.  The first
component records whether the speech engine was actually invoked
(`context.Process` reached); the second is the Go function's return value. -/
def transcribeRecording (eng : EngineBehaviour) : Bool × Except String String :=
  if eng.pcmDecodeFails then (false, Except.error "pcm decode failed")
  else if eng.newContextFails then (false, Except.error "new context failed")
  else if eng.processFails then (true, Except.error "process failed")
  else (true, consumeSegments eng.stream)

/-! ## Transcript publishing (`uploadTranscript` and `transcriptTitle`,
`server.go` lines 210-244) -/

/-- `transcriptTitle`: converts the transcript to runes (Unicode code
points), returns it unchanged when it has at most `maxTitleLen` runes, and
otherwise truncates to the first `maxTitleLen` runes and appends `...`. -/
def transcriptTitle (transcript : String) : String :=
  let runes := transcript.toList
  if runes.length ≤ maxTitleLen then transcript
  else String.mk (runes.take maxTitleLen) ++ "..."

/-- The create-page call `uploadTranscript` issues to the notes service:
parent database id, the derived title property, and the paragraph body
blocks (the date property carries the wall-clock time and is outside the
model). -/
structure CreatePageCall where
  parentId : String
  title : String
  bodyBlocks : List String
deriving Repr, DecidableEq

/-- `uploadTranscript`: issues exactly one create-page call with the
configured database as parent, `transcriptTitle transcript` as the title
property, and a single paragraph block holding the full transcript; the
external notes client can return an error.  The first component is the call
as sent, the second the Go function's error return. -/
def uploadTranscript (cfg : Config) (publishFails : Bool) (transcript : String) :
    CreatePageCall × Except String Unit :=
  ({ parentId := cfg.notionDatabaseId
     title := transcriptTitle transcript
     bodyBlocks := [transcript] },
   if publishFails then Except.error "create page failed" else Except.ok ())

/-! ## Pipeline orchestration (`processRecording`, `server.go` lines 100-123) -/

/-- The externally observable calls a pipeline invocation makes. -/
inductive Effect
  | fetchCall (url : String)
  | engineCall
  | publishCall (call : CreatePageCall)
deriving Repr, DecidableEq

/-- The behaviour of all external collaborators during one pipeline
invocation. -/
structure PipelineEnv where
  get : String → HttpGetResult
  resample : Nat → Nat → List Int → List Int
  decoded : WavDecodeResult
  encodeFails : Bool
  engine : EngineBehaviour
  publishFails : Bool

/-- `processRecording`: runs fetch, normalize, transcribe, publish strictly
in this order; an error return from any stage logs it and returns, so no
later stage runs and nothing is retried.  The result is the trace of
external calls the invocation made. -/
def processRecording (env : PipelineEnv) (cfg : Config) (url : String) : List Effect :=
  match downloadRecording env.get url with
  | Except.error _ => [Effect.fetchCall url]
  | Except.ok _recording =>
    match resampleRecording env.resample env.decoded env.encodeFails with
    | Except.error _ => [Effect.fetchCall url]
    | Except.ok _resampled =>
      let (engineInvoked, transcriptResult) := transcribeRecording env.engine
      let transcribeEffects :=
        if engineInvoked then [Effect.engineCall] else []
      match transcriptResult with
      | Except.error _ => Effect.fetchCall url :: transcribeEffects
      | Except.ok transcript =>
        let (call, _publishResult) := uploadTranscript cfg env.publishFails transcript
        Effect.fetchCall url :: transcribeEffects ++ [Effect.publishCall call]

/-! ## Helper lemmas about the middleware -/

/-- If every form field carries exactly one value, the well-formedness scan
of `checkTwilioSignature` succeeds. -/
theorem form_all_single (form : Form) (h : ∀ kv ∈ form, kv.2.length = 1) :
    form.all (fun kv => kv.2.length == 1) = true := by
  rw [List.all_eq_true]
  intro kv hkv
  simpa using h kv hkv

/-- The signature middleware writes nothing and passes control on when
every field is single-valued and the validator accepts the flattened
parameters. -/
theorem checkTwilioSignature_next (validate : String → List (String × String) → String → Bool)
    (hostname : String) (req : Request)
    (hwf : ∀ kv ∈ req.postForm, kv.2.length = 1)
    (hsig : validate ("https://" ++ hostname ++ req.path)
      (req.postForm.map (fun kv => (kv.1, kv.2.headD ""))) req.signatureHeader = true) :
    checkTwilioSignature validate hostname req = ([], false) := by
  simp only [checkTwilioSignature, form_all_single req.postForm hwf, hsig, if_true]

/-- For a caller outside the allow-list the whitelist middleware writes the
TwiML rejection document but does not abort the chain. -/
theorem checkCallerWhitelist_reject_write (wl : List String) (req : Request)
    (h : req.postForm.get "From" ∉ wl) :
    checkCallerWhitelist wl req =
      ([Write.directive 200 Directive.rejectCall], false) := by
  simp [checkCallerWhitelist, h]

/-- The whitelist middleware writes nothing and passes control on for an
allow-listed caller. -/
theorem checkCallerWhitelist_next (wl : List String) (req : Request)
    (h : req.postForm.get "From" ∈ wl) :
    checkCallerWhitelist wl req = ([], false) := by
  simp [checkCallerWhitelist, h]

/-! ## Concrete data for witnesses -/

/-- A concrete deployment configuration. -/
def cfgW : Config :=
  { modelFile := "ggml-base.en.bin"
    externalHostname := "journal.example.com"
    callerWhitelist := ["+15551234567"]
    twilioAccountSid := "AC1"
    twilioAuthToken := "token"
    notionAuthToken := "secret"
    notionDatabaseId := "db1" }

/-- A request whose `Digits` field carries two values. -/
def multiValueReq : Request :=
  { path := "/call"
    signatureHeader := "sig"
    postForm := [("Digits", ["1", "2"])] }

/-! ## C2: derived title -/

/-- C2: for every transcript of at most 32 code points the derived title is
the transcript unchanged; for every longer transcript it is exactly the
first 32 code points followed by the `...` ellipsis, and its length never
exceeds 35 characters. -/
theorem transcriptTitle_spec (t : String) :
    (t.length ≤ 32 → transcriptTitle t = t) ∧
    (t.length > 32 →
      transcriptTitle t = String.mk (t.toList.take 32) ++ "..." ∧
      (transcriptTitle t).length ≤ 35) := by
  have hlen : t.toList.length = t.length := rfl
  constructor
  · intro h
    have hle : t.toList.length ≤ maxTitleLen := by
      rw [hlen]; exact h
    unfold transcriptTitle
    rw [if_pos hle]
  · intro h
    have hnot : ¬ t.toList.length ≤ maxTitleLen := by
      rw [hlen]
      show ¬ t.length ≤ 32
      omega
    constructor
    · unfold transcriptTitle
      rw [if_neg hnot]
      rfl
    · unfold transcriptTitle
      rw [if_neg hnot]
      have htake : (t.toList.take maxTitleLen).length = maxTitleLen := by
        rw [List.length_take]
        rw [hlen]
        show min 32 t.length = 32
        omega
      rw [String.length_append, String.length_mk, htake]
      decide

/-- Witness for C2 at two concrete transcripts: a short one is kept whole,
a 40-character one is truncated to 32 characters plus the ellipsis. -/
theorem transcriptTitle_spec_witness :
    transcriptTitle "short memo" = "short memo" ∧
    transcriptTitle (String.mk (List.replicate 40 'a')) =
      String.mk (List.replicate 32 'a') ++ "..." ∧
    (transcriptTitle (String.mk (List.replicate 40 'a'))).length ≤ 35 := by
  refine ⟨(transcriptTitle_spec "short memo").1 (by decide), ?_, ?_⟩
  · have h := ((transcriptTitle_spec (String.mk (List.replicate 40 'a'))).2 (by decide)).1
    rw [h]; rfl
  · exact ((transcriptTitle_spec (String.mk (List.replicate 40 'a'))).2 (by decide)).2

/-! ## C3: signature mismatch -/

/-- C3: for every request whose form parameters are a well-formed key-value
mapping (each field exactly one value, so the expected signature over URL
and parameters is defined) but whose signature header the validator rejects,
the Verifier aborts with HTTP 403 Forbidden, whatever else the payload
holds. -/
theorem checkTwilioSignature_mismatch_forbidden
    (validate : String → List (String × String) → String → Bool)
    (hostname : String) (req : Request)
    (hwf : ∀ kv ∈ req.postForm, kv.2.length = 1)
    (hmismatch : validate ("https://" ++ hostname ++ req.path)
      (req.postForm.map (fun kv => (kv.1, kv.2.headD ""))) req.signatureHeader = false) :
    checkTwilioSignature validate hostname req = ([Write.status 403], true) := by
  simp only [checkTwilioSignature, form_all_single req.postForm hwf, hmismatch, if_true]
  rfl

/-- Witness for C3: a validator that rejects every signature, applied to a
single-valued form, yields 403. -/
theorem checkTwilioSignature_mismatch_forbidden_witness :
    checkTwilioSignature (fun _ _ _ => false) "journal.example.com"
      { path := "/call", signatureHeader := "bogus"
        postForm := [("From", ["+15551234567"]), ("RecordingStatus", ["completed"])] } =
      ([Write.status 403], true) :=
  checkTwilioSignature_mismatch_forbidden (fun _ _ _ => false) "journal.example.com"
    { path := "/call", signatureHeader := "bogus"
      postForm := [("From", ["+15551234567"]), ("RecordingStatus", ["completed"])] }
    (by decide) rfl

/-! ## C4: multi-valued or empty form fields -/

/-- Counterexample to C4 as stated: at a concrete request whose `Digits`
field carries two values, the Verifier aborts with HTTP 400 Bad Request,
not with HTTP 401 Unauthorized. -/
theorem checkTwilioSignature_multivalue_not_unauthorized :
    checkTwilioSignature (fun _ _ _ => true) "journal.example.com" multiValueReq =
      ([Write.status 400], true) ∧
    Write.status 400 ≠ Write.status 401 :=
  ⟨rfl, by decide⟩

/-- C4 (amended): for every request in which some form field carries zero or
multiple values, the Verifier rejects the request with HTTP 400 Bad Request. -/
theorem checkTwilioSignature_malformed_bad_request
    (validate : String → List (String × String) → String → Bool)
    (hostname : String) (req : Request)
    (h : ∃ kv ∈ req.postForm, kv.2.length ≠ 1) :
    checkTwilioSignature validate hostname req = ([Write.status 400], true) := by
  have hall : req.postForm.all (fun kv => kv.2.length == 1) = false := by
    rw [List.all_eq_false]
    obtain ⟨kv, hkv, hne⟩ := h
    exact ⟨kv, hkv, by simpa using hne⟩
  simp only [checkTwilioSignature, hall]
  rfl

/-- Witness for C4 (amended) at a concrete request with a two-valued field. -/
theorem checkTwilioSignature_malformed_bad_request_witness :
    checkTwilioSignature (fun _ _ _ => true) "journal.example.com" multiValueReq =
      ([Write.status 400], true) :=
  checkTwilioSignature_malformed_bad_request (fun _ _ _ => true) "journal.example.com"
    multiValueReq ⟨("Digits", ["1", "2"]), by decide, by decide⟩

/-! ## C5: malformed form rejected before authorization -/

/-- C5: for every request in which some form field carries two or more
values, both webhook routes answer HTTP 400, launch no pipeline, and stop
after the signature check — the caller-authorization stage never runs. -/
theorem multivalue_rejected_before_authorization
    (validate : String → List (String × String) → String → Bool)
    (cfg : Config) (req : Request)
    (h : ∃ kv ∈ req.postForm, 2 ≤ kv.2.length) :
    handleCall validate cfg req =
      { writes := [Write.status 400], launched := none
        stagesRun := [Stage.signatureCheck] } ∧
    handleRecording validate cfg req =
      { writes := [Write.status 400], launched := none
        stagesRun := [Stage.signatureCheck] } := by
  have habort : checkTwilioSignature validate cfg.externalHostname req =
      ([Write.status 400], true) := by
    apply checkTwilioSignature_malformed_bad_request
    obtain ⟨kv, hkv, hlen⟩ := h
    exact ⟨kv, hkv, by omega⟩
  constructor
  · simp [handleCall, runChain, habort]
  · simp [handleRecording, runChain, habort]

/-- Witness for C5 at a concrete request with a two-valued `Digits` field. -/
theorem multivalue_rejected_before_authorization_witness :
    handleCall (fun _ _ _ => true) cfgW multiValueReq =
      { writes := [Write.status 400], launched := none
        stagesRun := [Stage.signatureCheck] } ∧
    handleRecording (fun _ _ _ => true) cfgW multiValueReq =
      { writes := [Write.status 400], launched := none
        stagesRun := [Stage.signatureCheck] } :=
  multivalue_rejected_before_authorization (fun _ _ _ => true) cfgW multiValueReq
    ⟨("Digits", ["1", "2"]), by decide, by decide⟩

/-! ## C6: non-whitelisted caller on `/call` -/

/-- A signature-valid `/call` request from a number outside the allow-list
of `cfgW`. -/
def strangerCallReq : Request :=
  { path := "/call"
    signatureHeader := "sig"
    postForm := [("From", ["+19998887777"])] }

/-- C6: the claim says a verified `/call` request from a non-allow-listed
caller is answered with the rejection directive and never the record
directive.  Evaluating the routes on such a request shows the opposite:
because `checkCallerWhitelist` writes the reject TwiML without calling
`c.Abort()`, the chain continues, the `/call` handler still runs, and the
say-and-record directive is written into the same HTTP 200 response right
after the rejection directive. -/
theorem call_nonwhitelisted_record_also_written :
    handleCall (fun _ _ _ => true) cfgW strangerCallReq =
      { writes := [Write.directive 200 Directive.rejectCall,
                   Write.directive 200
                     (Directive.sayAndRecord "What's on your mind? This call is recorded."
                       "https://journal.example.com/recording")]
        launched := none
        stagesRun := [Stage.signatureCheck, Stage.whitelistCheck, Stage.handler] } := rfl

/-! ## C7: recording status gates the pipeline -/

/-- C7: on a signature-verified, allow-listed `/recording` POST, a
`RecordingStatus` other than `completed` yields HTTP 400 with no pipeline
launch, while `RecordingStatus = completed` yields HTTP 200 `Thanks!`
immediately together with the detached pipeline launch on the posted
`RecordingUrl` — the response never waits on the pipeline. -/
theorem recording_status_gates_pipeline
    (validate : String → List (String × String) → String → Bool)
    (cfg : Config) (req : Request)
    (hwf : ∀ kv ∈ req.postForm, kv.2.length = 1)
    (hsig : validate ("https://" ++ cfg.externalHostname ++ req.path)
      (req.postForm.map (fun kv => (kv.1, kv.2.headD ""))) req.signatureHeader = true)
    (hfrom : req.postForm.get "From" ∈ cfg.callerWhitelist) :
    (req.postForm.get "RecordingStatus" ≠ "completed" →
      handleRecording validate cfg req =
        { writes := [Write.status 400], launched := none
          stagesRun := [Stage.signatureCheck, Stage.whitelistCheck, Stage.handler] }) ∧
    (req.postForm.get "RecordingStatus" = "completed" →
      handleRecording validate cfg req =
        { writes := [Write.text 200 "Thanks!"]
          launched := some (req.postForm.get "RecordingUrl")
          stagesRun := [Stage.signatureCheck, Stage.whitelistCheck, Stage.handler] }) := by
  have hchain := checkTwilioSignature_next validate cfg.externalHostname req hwf hsig
  have hwl := checkCallerWhitelist_next cfg.callerWhitelist req hfrom
  constructor
  · intro hstatus
    simp [handleRecording, runChain, hchain, hwl, recordingHandler, if_pos hstatus]
  · intro hstatus
    have hnn : ¬ req.postForm.get "RecordingStatus" ≠ "completed" := by simp [hstatus]
    simp [handleRecording, runChain, hchain, hwl, recordingHandler, if_neg hnn]

/-- Witness for C7: one allow-listed POST with `RecordingStatus=failed` gets
400 and no launch; the same POST with `completed` gets 200 and the detached
launch. -/
theorem recording_status_gates_pipeline_witness :
    handleRecording (fun _ _ _ => true) cfgW
      { path := "/recording", signatureHeader := "sig"
        postForm := [("From", ["+15551234567"]), ("RecordingStatus", ["failed"]),
                     ("RecordingUrl", ["https://api.twilio.com/r1"])] } =
      { writes := [Write.status 400], launched := none
        stagesRun := [Stage.signatureCheck, Stage.whitelistCheck, Stage.handler] } ∧
    handleRecording (fun _ _ _ => true) cfgW
      { path := "/recording", signatureHeader := "sig"
        postForm := [("From", ["+15551234567"]), ("RecordingStatus", ["completed"]),
                     ("RecordingUrl", ["https://api.twilio.com/r1"])] } =
      { writes := [Write.text 200 "Thanks!"], launched := some "https://api.twilio.com/r1"
        stagesRun := [Stage.signatureCheck, Stage.whitelistCheck, Stage.handler] } :=
  ⟨(recording_status_gates_pipeline (fun _ _ _ => true) cfgW
      { path := "/recording", signatureHeader := "sig"
        postForm := [("From", ["+15551234567"]), ("RecordingStatus", ["failed"]),
                     ("RecordingUrl", ["https://api.twilio.com/r1"])] }
      (by decide) rfl (by decide)).1 (by decide),
   (recording_status_gates_pipeline (fun _ _ _ => true) cfgW
      { path := "/recording", signatureHeader := "sig"
        postForm := [("From", ["+15551234567"]), ("RecordingStatus", ["completed"]),
                     ("RecordingUrl", ["https://api.twilio.com/r1"])] }
      (by decide) rfl (by decide)).2 (by decide)⟩

/-! ## C10: the whitelist on `/recording` -/

/-- A signature-valid completed-recording POST with no `From` field at all,
so the caller reads as the empty string, which is not in `cfgW`'s
allow-list. -/
def noFromRecordingReq : Request :=
  { path := "/recording"
    signatureHeader := "sig"
    postForm := [("RecordingStatus", ["completed"]),
                 ("RecordingUrl", ["https://api.twilio.com/r1"])] }

/-- C10: the claim says a verified `/recording` POST from a
non-allow-listed caller (including an absent `From` field) gets the
call-rejection directive and the pipeline is never launched.  Evaluating
the route on such a request shows the opposite: `checkCallerWhitelist`
writes the reject TwiML but never calls `c.Abort()`, so the handler still
runs, appends `Thanks!` to the same response, and launches the detached
`processRecording` pipeline on the posted `RecordingUrl`. -/
theorem recording_nonwhitelisted_pipeline_launched :
    handleRecording (fun _ _ _ => true) cfgW noFromRecordingReq =
      { writes := [Write.directive 200 Directive.rejectCall, Write.text 200 "Thanks!"]
        launched := some "https://api.twilio.com/r1"
        stagesRun := [Stage.signatureCheck, Stage.whitelistCheck, Stage.handler] } := rfl

/-! ## C8: normalizer format invariant -/

/-- Unfolding of `resampleRecording` on a successful decode. -/
theorem resampleRecording_ok_eq (resample : Nat → Nat → List Int → List Int)
    (format : AudioFormat) (samples : List Int) (encodeFails : Bool) :
    resampleRecording resample (WavDecodeResult.ok format samples) encodeFails =
      if format.numChannels ≠ whisperNumChans then
        Except.error ("unsupported number of channels: " ++ toString format.numChannels)
      else if encodeFails = true then Except.error "encode failed"
      else Except.ok
        { format :=
            { numChannels := format.numChannels
              sampleRate := whisperSampleRate
              precision := format.precision }
          samples := resample format.sampleRate whisperSampleRate samples } := rfl

/-- C8: the Audio Normalizer fails with the unsupported-format error on
every decoded stream whose channel count is not 1, and every normalized
output it does produce has channel count 1, the speech engine's required
sample rate, and the input's bit precision. -/
theorem resampleRecording_format_invariant
    (resample : Nat → Nat → List Int → List Int)
    (decoded : WavDecodeResult) (encodeFails : Bool) :
    (∀ format samples, decoded = WavDecodeResult.ok format samples →
      format.numChannels ≠ 1 →
      resampleRecording resample decoded encodeFails =
        Except.error ("unsupported number of channels: " ++ toString format.numChannels)) ∧
    (∀ norm, resampleRecording resample decoded encodeFails = Except.ok norm →
      norm.format.numChannels = 1 ∧
      norm.format.sampleRate = whisperSampleRate ∧
      ∀ format samples, decoded = WavDecodeResult.ok format samples →
        norm.format.precision = format.precision) := by
  constructor
  · rintro format samples rfl hne
    rw [resampleRecording_ok_eq]
    rw [if_pos (show format.numChannels ≠ whisperNumChans from hne)]
  · intro norm hok
    cases hd : decoded with
    | err msg =>
      rw [hd] at hok
      exact absurd hok (by simp [resampleRecording])
    | ok format samples =>
      rw [hd, resampleRecording_ok_eq] at hok
      by_cases hch : format.numChannels ≠ whisperNumChans
      · rw [if_pos hch] at hok
        cases hok
      · rw [if_neg hch] at hok
        by_cases henc : encodeFails = true
        · rw [if_pos henc] at hok
          cases hok
        · rw [if_neg henc] at hok
          cases hok
          refine ⟨not_not.mp hch, rfl, ?_⟩
          rintro format' samples' h'
          cases h'
          rfl

/-- Witness for C8: a two-channel decode is refused; a mono 8000 Hz decode
with 16-bit precision normalizes to mono 16000 Hz keeping the precision. -/
theorem resampleRecording_format_invariant_witness :
    resampleRecording (fun _ _ s => s)
      (WavDecodeResult.ok { numChannels := 2, sampleRate := 44100, precision := 2 } [0]) false =
      Except.error ("unsupported number of channels: " ++ toString 2) ∧
    ∀ norm, resampleRecording (fun _ _ s => s)
      (WavDecodeResult.ok { numChannels := 1, sampleRate := 8000, precision := 2 } [0]) false =
        Except.ok norm →
      norm.format.numChannels = 1 ∧ norm.format.sampleRate = whisperSampleRate ∧
      norm.format.precision = 2 :=
  ⟨(resampleRecording_format_invariant (fun _ _ s => s)
      (WavDecodeResult.ok { numChannels := 2, sampleRate := 44100, precision := 2 } [0]) false).1
      { numChannels := 2, sampleRate := 44100, precision := 2 } [0] rfl (by decide),
   fun norm h =>
     ⟨((resampleRecording_format_invariant (fun _ _ s => s)
          (WavDecodeResult.ok { numChannels := 1, sampleRate := 8000, precision := 2 } [0])
          false).2 norm h).1,
      ((resampleRecording_format_invariant (fun _ _ s => s)
          (WavDecodeResult.ok { numChannels := 1, sampleRate := 8000, precision := 2 } [0])
          false).2 norm h).2.1,
      ((resampleRecording_format_invariant (fun _ _ s => s)
          (WavDecodeResult.ok { numChannels := 1, sampleRate := 8000, precision := 2 } [0])
          false).2 norm h).2.2
        { numChannels := 1, sampleRate := 8000, precision := 2 } [0] rfl⟩⟩

/-! ## Helper lemmas for the pipeline trace -/

/-- Consuming a stream of text segments followed by the end-of-segments
marker yields the separator-free concatenation of the segment texts in
emission order. -/
theorem consumeSegments_concat (segs : List String) (rest : List SegStep) :
    consumeSegments (segs.map SegStep.text ++ SegStep.endOfSegments :: rest) =
      Except.ok (segs.foldr (· ++ ·) "") := by
  induction segs with
  | nil => rfl
  | cons s ss ih =>
    simp only [List.map_cons, List.cons_append, consumeSegments, List.append_eq, ih,
      List.foldr_cons]

/-- A successful transcription implies the speech engine was invoked. -/
theorem transcribeRecording_invoked_of_ok (eng : EngineBehaviour) (t : String)
    (h : (transcribeRecording eng).2 = Except.ok t) :
    (transcribeRecording eng).1 = true := by
  cases hp : eng.pcmDecodeFails <;> cases hn : eng.newContextFails <;>
    cases hf : eng.processFails <;> simp [transcribeRecording, hp, hn, hf] at h ⊢

/-- Every pipeline trace is the fetch alone, fetch then a failed engine
call, or fetch, engine call, and the publish of the successful transcript. -/
theorem processRecording_trace (env : PipelineEnv) (cfg : Config) (url : String) :
    processRecording env cfg url = [Effect.fetchCall url] ∨
    (processRecording env cfg url = [Effect.fetchCall url, Effect.engineCall] ∧
      ∃ e, (transcribeRecording env.engine).2 = Except.error e) ∨
    (∃ t, (transcribeRecording env.engine).2 = Except.ok t ∧
      processRecording env cfg url =
        [Effect.fetchCall url, Effect.engineCall,
         Effect.publishCall (uploadTranscript cfg env.publishFails t).1]) := by
  unfold processRecording
  cases hdl : downloadRecording env.get url with
  | error e => exact Or.inl rfl
  | ok bytes =>
    cases hrs : resampleRecording env.resample env.decoded env.encodeFails with
    | error e => exact Or.inl rfl
    | ok norm =>
      cases htr : transcribeRecording env.engine with
      | mk invoked result =>
        cases result with
        | error e =>
          cases invoked with
          | false => exact Or.inl rfl
          | true => exact Or.inr (Or.inl ⟨rfl, e, rfl⟩)
        | ok t =>
          have hinv : invoked = true := by
            have h1 := transcribeRecording_invoked_of_ok env.engine t (by rw [htr])
            rw [htr] at h1
            exact h1
          subst hinv
          refine Or.inr (Or.inr ⟨t, rfl, rfl⟩)

/-- A normalization failure leaves the trace at the fetch call alone. -/
theorem processRecording_of_resample_error (env : PipelineEnv) (cfg : Config) (url : String)
    (e : String) (h : resampleRecording env.resample env.decoded env.encodeFails = Except.error e) :
    processRecording env cfg url = [Effect.fetchCall url] := by
  unfold processRecording
  cases hdl : downloadRecording env.get url with
  | error e' => rfl
  | ok bytes => rw [h]

/-! ## C1: stage sequencing and failure isolation -/

/-- C1: every pipeline invocation runs fetch, normalize, transcribe,
publish strictly in sequence, each external call at most once (no retry):
the trace is always a prefix-closed fetch/engine/publish sequence; a fetch
answered with a non-200 status (such as 404) leaves the trace at the single
fetch call, so the speech engine and the notes service are never called; a
normalization failure likewise; and a transcription failure never reaches
the notes service. -/
theorem processRecording_stage_isolation (env : PipelineEnv) (cfg : Config) (url : String) :
    (processRecording env cfg url = [Effect.fetchCall url] ∨
     processRecording env cfg url = [Effect.fetchCall url, Effect.engineCall] ∨
     ∃ call, processRecording env cfg url =
       [Effect.fetchCall url, Effect.engineCall, Effect.publishCall call]) ∧
    (∀ statusCode body readFails,
      env.get url = HttpGetResult.response statusCode body readFails → statusCode ≠ 200 →
      processRecording env cfg url = [Effect.fetchCall url]) ∧
    (∀ e, resampleRecording env.resample env.decoded env.encodeFails = Except.error e →
      Effect.engineCall ∉ processRecording env cfg url ∧
      ∀ call, Effect.publishCall call ∉ processRecording env cfg url) ∧
    (∀ e, (transcribeRecording env.engine).2 = Except.error e →
      ∀ call, Effect.publishCall call ∉ processRecording env cfg url) := by
  refine ⟨?_, ?_, ?_, ?_⟩
  · rcases processRecording_trace env cfg url with h | ⟨h, _⟩ | ⟨t, _, h⟩
    · exact Or.inl h
    · exact Or.inr (Or.inl h)
    · exact Or.inr (Or.inr ⟨_, h⟩)
  · intro statusCode body readFails hget hne
    have hdl : downloadRecording env.get url =
        Except.error ("unexpected status code: " ++ toString statusCode) := by
      simp only [downloadRecording, hget]
      rw [if_pos hne]
    unfold processRecording
    rw [hdl]
  · intro e h
    rw [processRecording_of_resample_error env cfg url e h]
    exact ⟨by simp, fun call => by simp⟩
  · intro e h call
    rcases processRecording_trace env cfg url with htr | ⟨htr, _⟩ | ⟨t, hok, _⟩
    · rw [htr]; simp
    · rw [htr]; simp
    · rw [hok] at h
      exact Except.noConfusion h

/-- A pipeline environment whose recording fetch is answered with 404. -/
def env404 : PipelineEnv :=
  { get := fun _ => HttpGetResult.response 404 [] false
    resample := fun _ _ s => s
    decoded := WavDecodeResult.err "no data"
    encodeFails := false
    engine := { pcmDecodeFails := true, newContextFails := false, processFails := false
                stream := [] }
    publishFails := false }

/-- Witness for C1: with the fetch answered 404, the trace is the single
fetch call — zero engine calls and zero publish calls. -/
theorem processRecording_stage_isolation_witness :
    processRecording env404 cfgW "https://api.twilio.com/r404" =
      [Effect.fetchCall "https://api.twilio.com/r404"] :=
  (processRecording_stage_isolation env404 cfgW "https://api.twilio.com/r404").2.1
    404 [] false rfl (by decide)

/-! ## C9: transcript concatenation and single publish -/

/-- C9: on every successful transcription the transcript equals the
separator-free concatenation, in emission order, of the texts of all
segments the engine emits before end-of-segments; and the pipeline then
makes exactly one notes-service create-page call whose single body block is
that full transcript. -/
theorem transcript_concat_published_once
    (env : PipelineEnv) (cfg : Config) (url : String)
    (segs : List String) (rest : List SegStep)
    (hfetch : ∃ body, downloadRecording env.get url = Except.ok body)
    (hnorm : ∃ norm,
      resampleRecording env.resample env.decoded env.encodeFails = Except.ok norm)
    (hpcm : env.engine.pcmDecodeFails = false)
    (hctx : env.engine.newContextFails = false)
    (hproc : env.engine.processFails = false)
    (hstream : env.engine.stream = segs.map SegStep.text ++ SegStep.endOfSegments :: rest) :
    (transcribeRecording env.engine).2 = Except.ok (segs.foldr (· ++ ·) "") ∧
    processRecording env cfg url =
      [Effect.fetchCall url, Effect.engineCall,
       Effect.publishCall
         { parentId := cfg.notionDatabaseId
           title := transcriptTitle (segs.foldr (· ++ ·) "")
           bodyBlocks := [segs.foldr (· ++ ·) ""] }] := by
  obtain ⟨body, hbody⟩ := hfetch
  obtain ⟨norm, hnormEq⟩ := hnorm
  have htrans : transcribeRecording env.engine =
      (true, Except.ok (segs.foldr (· ++ ·) "")) := by
    simp [transcribeRecording, hpcm, hctx, hproc, hstream, consumeSegments_concat]
  refine ⟨by rw [htrans], ?_⟩
  unfold processRecording
  rw [hbody, hnormEq, htrans]
  rfl

/-- A pipeline environment in which every stage succeeds and the engine
emits two segments before end-of-segments. -/
def envOk : PipelineEnv :=
  { get := fun _ => HttpGetResult.response 200 [0, 1] false
    resample := fun _ _ s => s
    decoded := WavDecodeResult.ok { numChannels := 1, sampleRate := 44100, precision := 2 } [0, 1]
    encodeFails := false
    engine := { pcmDecodeFails := false, newContextFails := false, processFails := false
                stream := [SegStep.text " Hello", SegStep.text " world.",
                           SegStep.endOfSegments] }
    publishFails := false }

/-- Witness for C9: with two emitted segments the transcript is their
concatenation and exactly one create-page call carries it as the single
body block. -/
theorem transcript_concat_published_once_witness :
    (transcribeRecording envOk.engine).2 =
      Except.ok ([" Hello", " world."].foldr (· ++ ·) "") ∧
    processRecording envOk cfgW "https://api.twilio.com/r1" =
      [Effect.fetchCall "https://api.twilio.com/r1", Effect.engineCall,
       Effect.publishCall
         { parentId := cfgW.notionDatabaseId
           title := transcriptTitle ([" Hello", " world."].foldr (· ++ ·) "")
           bodyBlocks := [[" Hello", " world."].foldr (· ++ ·) ""] }] :=
  transcript_concat_published_once envOk cfgW "https://api.twilio.com/r1"
    [" Hello", " world."] [] ⟨[0, 1], rfl⟩
    ⟨{ format := { numChannels := 1, sampleRate := whisperSampleRate, precision := 2 }
       samples := [0, 1] }, rfl⟩
    rfl rfl rfl rfl

end PhoneJournal
